import Mathlib

/-!
Formal model of the serverless endpoint in `api/generate.js`.

The file embeds the exported function `module.exports = allowCors(handler)`
as a pure Lean function from the request, the process environment and the
behaviour of the external Gemini provider to the observable outcome: the
response headers that were set, the list of (status, body) responses that
were sent, and whether the inner handler / the provider were reached.
-/

/-- A JavaScript value that may appear as the `prompt` field of the
parsed request body.  Strings, numbers, booleans and `null` cover the
falsy/truthy distinctions made by the `if (!prompt)` check. -/
inductive JSVal where
  | str (s : String)
  | num (n : Int)
  | bool (b : Bool)
  | null
  deriving Repr, DecidableEq

/-- JavaScript truthiness of a value: empty string, 0, false and null are
falsy; everything else is truthy. -/
def JSVal.truthy : JSVal → Bool
  | .str s => s != ""
  | .num n => n != 0
  | .bool b => b
  | .null => false

/-- Truthiness of `req.body.prompt`, where `none` models an absent field
(JavaScript `undefined`, which is falsy). -/
def truthyOpt : Option JSVal → Bool
  | none => false
  | some v => v.truthy

/-- Truthiness of an environment variable (`process.env.GOOGLE_API_KEY`):
absent (`undefined`) and the empty string are falsy. -/
def truthyStr : Option String → Bool
  | none => false
  | some s => s != ""

/-- The inbound HTTP request: its method and the `prompt` field of its
parsed JSON body (`none` when the field is missing). -/
structure Request where
  method : String
  prompt : Option JSVal
  deriving Repr, DecidableEq

/-- The process environment: the `GOOGLE_API_KEY` variable, `none` when
it is not configured. -/
structure Env where
  GOOGLE_API_KEY : Option String
  deriving Repr, DecidableEq

/-- The nested `error` object optionally found at
`error.response.data.error`, with its optional `message` string. -/
structure ErrDataError where
  message : Option String
  deriving Repr, DecidableEq

/-- The `data` object optionally attached to an embedded HTTP response on
a thrown error (`error.response.data`). -/
structure ErrData where
  error : Option ErrDataError
  deriving Repr, DecidableEq

/-- An embedded HTTP response optionally carried by a thrown error
(`error.response`): its optional `data` object and optional numeric
`status` (0 models a falsy status). -/
structure ErrResponse where
  data : Option ErrData
  status : Option Nat
  deriving Repr, DecidableEq

/-- A JavaScript error thrown by the provider call, as inspected by the
catch block: optional embedded `response` and optional `message`. -/
structure JsError where
  response : Option ErrResponse
  message : Option String
  deriving Repr, DecidableEq

/-- The outcome of the awaited provider interaction
(`model.generateContent` followed by `response.text()`): either it
resolves and `text()` returns a string, or something in the try block
throws and the catch block receives a `JsError`. -/
inductive ProviderResult where
  | success (text : String)
  | failure (e : JsError)
  deriving Repr, DecidableEq

/-- A JSON value, for response bodies produced with `res.json(...)`. -/
inductive Json where
  | str (s : String)
  | num (n : Int)
  | arr (elems : List Json)
  | obj (fields : List (String × Json))

/-- A response body: empty (from `res.end()`) or a JSON document (from
`res.json(...)`). -/
inductive Body where
  | empty
  | json (j : Json)

/-- One call to `res.status(s).json(b)` or `res.status(s).end()`: a
single response sent with status `s` and body `b`. -/
structure Send where
  status : Nat
  body : Body

/-- Everything observable about one invocation of the exported endpoint:
the headers set on `res`, the responses sent (in order), and whether the
inner handler and the provider call were reached. -/
structure Outcome where
  headers : List (String × String)
  sends : List Send
  providerCalled : Bool
  handlerInvoked : Bool

/-- List-of-characters prefix test, used to model
`String.prototype.includes`. -/
def charsPrefix : List Char → List Char → Bool
  | [], _ => true
  | _ :: _, [] => false
  | a :: as, b :: bs => a == b && charsPrefix as bs

/-- JavaScript `s.includes(pat)`: `pat` occurs as a contiguous substring
of `s`. -/
def hasSubstring (s pat : String) : Bool :=
  (List.range (s.data.length + 1)).any (fun i => charsPrefix pat.data (s.data.drop i))

/-- The `{ error: msg }` JSON body used on every error path. -/
def errJson (msg : String) : Body :=
  .json (.obj [("error", .str msg)])

/-- The success body
`{candidates: [{content: {parts: [{text: t}]}}]}` sent on HTTP 200. -/
def successJson (t : String) : Body :=
  .json (.obj [("candidates",
    .arr [.obj [("content",
      .obj [("parts",
        .arr [.obj [("text", .str t)]])])]])])

/-- The default error message initialised at the top of the catch block
before any classification happens. -/
def defaultErrorMessage : String := "Error interno al procesar la consulta con la IA."

/-- The catch block of `handler` (lines 125-148 of `api/generate.js`):
from the thrown error it derives the status code and error message of the
response.  Mirrors the JavaScript precedence:
`if (error.response && error.response.data)` uses
`error.response.data.error?.message || errorMessage` and
`error.response.status || statusCode`; `else if (error.message)` wraps
the message as `Error de Gemini: ...` and overrides status/message when
the message includes `API key not valid` (401) or `Blocked reason`
(403); otherwise the defaults (500, generic message) stand. -/
def classifyError (e : JsError) : Nat × String :=
  match e.response with
  | some r =>
    match r.data with
    | some d =>
      let msg :=
        match d.error.bind (fun x => x.message) with
        | some m => if m != "" then m else defaultErrorMessage
        | none => defaultErrorMessage
      let st :=
        match r.status with
        | some s => if s != 0 then s else 500
        | none => 500
      (st, msg)
    | none => classifyByMessage e.message
  | none => classifyByMessage e.message
where
  /-- The `else if (error.message)` arm of the catch block. -/
  classifyByMessage : Option String → Nat × String
  | some m =>
    if m != "" then
      if hasSubstring m "API key not valid" then
        (401, "La clave API no es válida o no tiene permisos. Verifique su GOOGLE_API_KEY.")
      else if hasSubstring m "Blocked reason" then
        (403, "Contenido bloqueado por las políticas de seguridad de la IA: " ++ m)
      else
        (500, "Error de Gemini: " ++ m)
    else (500, defaultErrorMessage)
  | none => (500, defaultErrorMessage)

/-- The inner `handler` of `api/generate.js` (lines 39-150), given the
headers already set by the CORS wrapper.  Checks the method, the
truthiness of `prompt` and of the API key, then awaits the provider and
sends exactly one response on each path. -/
def handler (env : Env) (provider : ProviderResult) (req : Request)
    (hdrs : List (String × String)) : Outcome :=
  if req.method != "POST" then
    { headers := hdrs ++ [("Allow", "POST")],
      sends := [⟨405, errJson "Método no permitido"⟩],
      providerCalled := false, handlerInvoked := true }
  else if !truthyOpt req.prompt then
    { headers := hdrs,
      sends := [⟨400, errJson "El campo \"prompt\" es requerido."⟩],
      providerCalled := false, handlerInvoked := true }
  else if !truthyStr env.GOOGLE_API_KEY then
    { headers := hdrs,
      sends := [⟨500, errJson "Error de configuración del servidor."⟩],
      providerCalled := false, handlerInvoked := true }
  else
    match provider with
    | .success text =>
      if text != "" then
        { headers := hdrs,
          sends := [⟨200, successJson text⟩],
          providerCalled := true, handlerInvoked := true }
      else
        { headers := hdrs,
          sends := [⟨500, errJson "No se recibió una respuesta textual válida del modelo."⟩],
          providerCalled := true, handlerInvoked := true }
    | .failure e =>
      { headers := hdrs,
        sends := [⟨(classifyError e).1, errJson (classifyError e).2⟩],
        providerCalled := true, handlerInvoked := true }

/-- The four CORS headers set unconditionally by `allowCors` before any
other processing. -/
def corsHeaders : List (String × String) :=
  [("Access-Control-Allow-Credentials", "true"),
   ("Access-Control-Allow-Origin", "*"),
   ("Access-Control-Allow-Methods", "POST, OPTIONS"),
   ("Access-Control-Allow-Headers", "X-CSRF-Token, X-Requested-With, Accept, Accept-Version, Content-Length, Content-MD5, Content-Type, Date, X-Api-Version")]

/-- The exported function `allowCors(handler)`: sets the CORS headers,
short-circuits `OPTIONS` with `res.status(200).end()` without invoking
the inner handler, and otherwise delegates to `handler`. -/
def endpoint (env : Env) (provider : ProviderResult) (req : Request) : Outcome :=
  if req.method == "OPTIONS" then
    { headers := corsHeaders,
      sends := [⟨200, .empty⟩],
      providerCalled := false, handlerInvoked := false }
  else
    handler env provider req corsHeaders

/-- True when the thrown error carries no embedded response with data,
i.e. the JavaScript test `error.response && error.response.data` fails. -/
def noEmbeddedData (e : JsError) : Bool :=
  match e.response with
  | some r => r.data.isNone
  | none => true

/-- A well-formed POST request with a truthy prompt, used by witnesses. -/
def exReq : Request := { method := "POST", prompt := some (.str "hola") }

/-- An environment with a configured API key, used by witnesses. -/
def exEnv : Env := { GOOGLE_API_KEY := some "test-key" }

/-- Claim C1: for every POST request with a truthy prompt and a
configured credential, when the provider call succeeds with non-empty
text t the endpoint sends exactly one response, HTTP 200 with body
`{candidates: [{content: {parts: [{text: t}]}}]}` and no other fields. -/
theorem c1_success_shape (env : Env) (req : Request) (t : String)
    (hm : req.method = "POST") (hp : truthyOpt req.prompt = true)
    (hk : truthyStr env.GOOGLE_API_KEY = true) (ht : t ≠ "") :
    (endpoint env (.success t) req).sends =
      [⟨200, Body.json (Json.obj [("candidates",
        Json.arr [Json.obj [("content",
          Json.obj [("parts",
            Json.arr [Json.obj [("text", Json.str t)]])])]])])⟩] := by
  simp [endpoint, handler, hm, hp, hk, bne_iff_ne, ht, successJson]

/-- Witness for C1 at a concrete request, key and provider text. -/
theorem c1_success_shape_witness :
    (endpoint exEnv (.success "hello") exReq).sends =
      [⟨200, Body.json (Json.obj [("candidates",
        Json.arr [Json.obj [("content",
          Json.obj [("parts",
            Json.arr [Json.obj [("text", Json.str "hello")]])])]])])⟩] :=
  c1_success_shape exEnv exReq "hello" rfl rfl rfl (by decide)

/-- Claim C3: all four CORS headers are present on the response for
every request, whatever the method, validation outcome or provider
behaviour. -/
theorem c3_cors_headers (env : Env) (p : ProviderResult) (req : Request) :
    ("Access-Control-Allow-Credentials", "true") ∈ (endpoint env p req).headers ∧
    ("Access-Control-Allow-Origin", "*") ∈ (endpoint env p req).headers ∧
    ("Access-Control-Allow-Methods", "POST, OPTIONS") ∈ (endpoint env p req).headers ∧
    ("Access-Control-Allow-Headers", "X-CSRF-Token, X-Requested-With, Accept, Accept-Version, Content-Length, Content-MD5, Content-Type, Date, X-Api-Version") ∈ (endpoint env p req).headers := by
  have h : (endpoint env p req).headers = corsHeaders ∨
      (endpoint env p req).headers = corsHeaders ++ [("Allow", "POST")] := by
    unfold endpoint handler
    repeat' split
    all_goals simp
  rcases h with h | h <;> rw [h] <;> simp [corsHeaders]

/-- Claim C4: every request whose method is not POST is answered by the
inner handler with HTTP 405, an Allow: POST header, and an error-object
body. -/
theorem c4_method_not_allowed (env : Env) (p : ProviderResult) (req : Request)
    (hdrs : List (String × String)) (hm : req.method ≠ "POST") :
    (handler env p req hdrs).sends =
      [⟨405, Body.json (Json.obj [("error", Json.str "Método no permitido")])⟩] ∧
    ("Allow", "POST") ∈ (handler env p req hdrs).headers := by
  simp [handler, bne_iff_ne, hm, errJson]

/-- Witness for C4 at a concrete GET request. -/
theorem c4_method_not_allowed_witness :
    (handler exEnv (.success "hello") { method := "GET", prompt := none } corsHeaders).sends =
      [⟨405, Body.json (Json.obj [("error", Json.str "Método no permitido")])⟩] ∧
    ("Allow", "POST") ∈ (handler exEnv (.success "hello") { method := "GET", prompt := none } corsHeaders).headers :=
  c4_method_not_allowed exEnv (.success "hello") { method := "GET", prompt := none } corsHeaders (by decide)

/-- Claim C5: an OPTIONS request is short-circuited by the CORS wrapper
with HTTP 200 and an empty body, the CORS headers are set, and neither
the inner handler nor the provider is invoked. -/
theorem c5_options_preflight (env : Env) (p : ProviderResult) (req : Request)
    (hm : req.method = "OPTIONS") :
    (endpoint env p req).sends = [⟨200, Body.empty⟩] ∧
    (endpoint env p req).headers = corsHeaders ∧
    (endpoint env p req).handlerInvoked = false ∧
    (endpoint env p req).providerCalled = false := by
  simp [endpoint, hm]

/-- Witness for C5 at a concrete OPTIONS request. -/
theorem c5_options_preflight_witness :
    (endpoint exEnv (.success "hello") { method := "OPTIONS", prompt := none }).sends = [⟨200, Body.empty⟩] ∧
    (endpoint exEnv (.success "hello") { method := "OPTIONS", prompt := none }).headers = corsHeaders ∧
    (endpoint exEnv (.success "hello") { method := "OPTIONS", prompt := none }).handlerInvoked = false ∧
    (endpoint exEnv (.success "hello") { method := "OPTIONS", prompt := none }).providerCalled = false :=
  c5_options_preflight exEnv (.success "hello") { method := "OPTIONS", prompt := none } rfl

/-- Claim C6: a POST request whose body lacks the prompt field or whose
prompt is the empty string is answered with HTTP 400 and the exact body
`{"error":"El campo \x22prompt\x22 es requerido."}`, and the provider is
not called. -/
theorem c6_missing_prompt (env : Env) (p : ProviderResult) (req : Request)
    (hm : req.method = "POST")
    (hp : req.prompt = none ∨ req.prompt = some (JSVal.str "")) :
    (endpoint env p req).sends =
      [⟨400, Body.json (Json.obj [("error", Json.str "El campo \"prompt\" es requerido.")])⟩] ∧
    (endpoint env p req).providerCalled = false := by
  rcases hp with h | h <;>
    simp [endpoint, handler, hm, h, truthyOpt, JSVal.truthy, errJson]

/-- Witness for C6 at a concrete POST request with body lacking prompt. -/
theorem c6_missing_prompt_witness :
    (endpoint exEnv (.success "hello") { method := "POST", prompt := none }).sends =
      [⟨400, Body.json (Json.obj [("error", Json.str "El campo \"prompt\" es requerido.")])⟩] ∧
    (endpoint exEnv (.success "hello") { method := "POST", prompt := none }).providerCalled = false :=
  c6_missing_prompt exEnv (.success "hello") { method := "POST", prompt := none } rfl (Or.inl rfl)

/-- Claim C7: a POST request with a truthy prompt but no GOOGLE_API_KEY
in the environment is answered with HTTP 500 and the configuration-error
body, and the provider call is not attempted. -/
theorem c7_missing_key (env : Env) (p : ProviderResult) (req : Request)
    (hm : req.method = "POST") (hp : truthyOpt req.prompt = true)
    (hk : env.GOOGLE_API_KEY = none) :
    (endpoint env p req).sends =
      [⟨500, Body.json (Json.obj [("error", Json.str "Error de configuración del servidor.")])⟩] ∧
    (endpoint env p req).providerCalled = false := by
  simp [endpoint, handler, hm, hp, hk, truthyStr, errJson]

/-- Witness for C7 at a concrete request and empty environment. -/
theorem c7_missing_key_witness :
    (endpoint { GOOGLE_API_KEY := none } (.success "hello") exReq).sends =
      [⟨500, Body.json (Json.obj [("error", Json.str "Error de configuración del servidor.")])⟩] ∧
    (endpoint { GOOGLE_API_KEY := none } (.success "hello") exReq).providerCalled = false :=
  c7_missing_key { GOOGLE_API_KEY := none } (.success "hello") exReq rfl rfl rfl

/-- Claim C8: when validation passes but the provider resolves with
empty text, the endpoint answers HTTP 500 with a generic error-object
body, not the 200 success shape. -/
theorem c8_empty_text (env : Env) (req : Request)
    (hm : req.method = "POST") (hp : truthyOpt req.prompt = true)
    (hk : truthyStr env.GOOGLE_API_KEY = true) :
    (endpoint env (.success "") req).sends =
      [⟨500, Body.json (Json.obj [("error", Json.str "No se recibió una respuesta textual válida del modelo.")])⟩] := by
  simp [endpoint, handler, hm, hp, hk, errJson]

/-- Witness for C8 at a concrete request. -/
theorem c8_empty_text_witness :
    (endpoint exEnv (.success "") exReq).sends =
      [⟨500, Body.json (Json.obj [("error", Json.str "No se recibió una respuesta textual válida del modelo.")])⟩] :=
  c8_empty_text exEnv exReq rfl rfl rfl

/-- Claim C9: every invocation of the endpoint sends exactly one
response, on every control path. -/
theorem c9_exactly_one_response (env : Env) (p : ProviderResult) (req : Request) :
    (endpoint env p req).sends.length = 1 := by
  unfold endpoint handler
  repeat' split
  all_goals rfl

/-- Claim C10: prompt validation is a truthiness check.  Every falsy
prompt value (empty string, 0, false, null) is rejected with the same
HTTP 400 response as a missing field, while any truthy prompt value,
whitespace-only strings included, passes validation so the provider is
reached. -/
theorem c10_prompt_truthiness (env : Env) (p : ProviderResult) (req : Request)
    (hm : req.method = "POST") :
    ((req.prompt = some (JSVal.str "") ∨ req.prompt = some (JSVal.num 0) ∨
      req.prompt = some (JSVal.bool false) ∨ req.prompt = some JSVal.null) →
      (endpoint env p req).sends = (endpoint env p { method := "POST", prompt := none }).sends ∧
      (endpoint env p req).sends =
        [⟨400, Body.json (Json.obj [("error", Json.str "El campo \"prompt\" es requerido.")])⟩]) ∧
    (∀ v : JSVal, req.prompt = some v → v.truthy = true →
      truthyStr env.GOOGLE_API_KEY = true →
      (endpoint env p req).providerCalled = true) := by
  constructor
  · intro h
    rcases h with h | h | h | h <;>
      simp [endpoint, handler, hm, h, truthyOpt, JSVal.truthy, errJson]
  · intro v hv htr hk
    have hp : truthyOpt req.prompt = true := by rw [hv]; exact htr
    rcases p with t | e
    · by_cases ht : t = ""
      · simp [endpoint, handler, hm, hp, hk, ht]
      · simp [endpoint, handler, hm, hp, hk, bne_iff_ne, ht]
    · simp [endpoint, handler, hm, hp, hk]

/-- Witness for C10 at a whitespace-only prompt: validation passes and
the provider is called. -/
theorem c10_prompt_truthiness_witness :
    (endpoint exEnv (.success "hello") { method := "POST", prompt := some (JSVal.str " ") }).providerCalled = true :=
  (c10_prompt_truthiness exEnv (.success "hello")
      { method := "POST", prompt := some (JSVal.str " ") } rfl).2
    (JSVal.str " ") rfl rfl rfl

/-- With a POST request, a truthy prompt and a configured key, a
provider failure reaches the catch block: the endpoint sends exactly one
response carrying the classified status and error body. -/
theorem endpoint_failure_sends (env : Env) (req : Request) (e : JsError)
    (hm : req.method = "POST") (hp : truthyOpt req.prompt = true)
    (hk : truthyStr env.GOOGLE_API_KEY = true) :
    (endpoint env (.failure e) req).sends =
      [⟨(classifyError e).1, errJson (classifyError e).2⟩] := by
  simp [endpoint, handler, hm, hp, hk]

/-- When the thrown error has no embedded response with data,
classification falls through to the message-inspection arm. -/
theorem classifyError_noEmbedded (e : JsError) (h : noEmbeddedData e = true) :
    classifyError e = classifyError.classifyByMessage e.message := by
  unfold noEmbeddedData at h
  rcases he : e.response with _ | r
  · simp [classifyError, he]
  · rw [he] at h
    simp only [Option.isNone_iff_eq_none] at h
    rcases hd : r.data with _ | d
    · simp [classifyError, he, hd]
    · rw [hd] at h; simp at h

/-- Claim C2: when the provider call throws, the error is normalized into
an error-object body with status chosen by the exact precedence of the
catch block: an embedded response with data supplies the embedded status
and message; otherwise a message containing "API key not valid" gives
401 with the credential-specific message; otherwise a message containing
"Blocked reason" gives 403 with a message that includes the original
text; otherwise the response is 500 with the wrapped message, or the
generic default when no usable message exists. -/
theorem c2_error_normalization (env : Env) (req : Request) (e : JsError)
    (hm : req.method = "POST") (hp : truthyOpt req.prompt = true)
    (hk : truthyStr env.GOOGLE_API_KEY = true) :
    (∀ r d de s m, e.response = some r → r.data = some d → d.error = some de →
      de.message = some m → m ≠ "" → r.status = some s → s ≠ 0 →
      (endpoint env (.failure e) req).sends = [⟨s, errJson m⟩]) ∧
    (∀ m, noEmbeddedData e = true → e.message = some m → m ≠ "" →
      hasSubstring m "API key not valid" = true →
      (endpoint env (.failure e) req).sends =
        [⟨401, errJson "La clave API no es válida o no tiene permisos. Verifique su GOOGLE_API_KEY."⟩]) ∧
    (∀ m, noEmbeddedData e = true → e.message = some m → m ≠ "" →
      hasSubstring m "API key not valid" = false →
      hasSubstring m "Blocked reason" = true →
      (endpoint env (.failure e) req).sends =
        [⟨403, errJson ("Contenido bloqueado por las políticas de seguridad de la IA: " ++ m)⟩]) ∧
    (∀ m, noEmbeddedData e = true → e.message = some m → m ≠ "" →
      hasSubstring m "API key not valid" = false →
      hasSubstring m "Blocked reason" = false →
      (endpoint env (.failure e) req).sends = [⟨500, errJson ("Error de Gemini: " ++ m)⟩]) ∧
    (noEmbeddedData e = true → (e.message = none ∨ e.message = some "") →
      (endpoint env (.failure e) req).sends = [⟨500, errJson defaultErrorMessage⟩]) := by
  have hS := endpoint_failure_sends env req e hm hp hk
  refine ⟨?_, ?_, ?_, ?_, ?_⟩
  · intro r d de s m h1 h2 h3 h4 h5 h6 h7
    rw [hS]
    simp [classifyError, h1, h2, h3, h4, bne_iff_ne, h5, h6, h7]
  · intro m hne hmsg hm2 hsub
    rw [hS, classifyError_noEmbedded e hne, hmsg]
    simp [classifyError.classifyByMessage, bne_iff_ne, hm2, hsub]
  · intro m hne hmsg hm2 hs1 hs2
    rw [hS, classifyError_noEmbedded e hne, hmsg]
    simp [classifyError.classifyByMessage, bne_iff_ne, hm2, hs1, hs2]
  · intro m hne hmsg hm2 hs1 hs2
    rw [hS, classifyError_noEmbedded e hne, hmsg]
    simp [classifyError.classifyByMessage, bne_iff_ne, hm2, hs1, hs2]
  · intro hne hmsg
    rcases hmsg with h | h <;>
      rw [hS, classifyError_noEmbedded e hne, h] <;>
      simp [classifyError.classifyByMessage]

/-- A concrete thrown error whose message mentions an invalid API key
and which carries no embedded response. -/
def exKeyError : JsError :=
  { response := none, message := some "API key not valid. Please pass a valid API key." }

/-- Witness for C2: at the concrete invalid-key error the endpoint
answers 401 with the credential-specific message. -/
theorem c2_error_normalization_witness :
    (endpoint exEnv (.failure exKeyError) exReq).sends =
      [⟨401, errJson "La clave API no es válida o no tiene permisos. Verifique su GOOGLE_API_KEY."⟩] :=
  (c2_error_normalization exEnv exReq exKeyError rfl rfl rfl).2.1
    "API key not valid. Please pass a valid API key." rfl rfl (by decide) (by decide)
